import Mathlib

/-!
Shallow embedding of `tradingsimulator.py`: a Flask server plus an embedded
JavaScript client. The client keeps a portfolio (cash, holdings) and mutates
it with `buyStock` / `sellStock`; the server exposes price / chart routes and
a portfolio-performance chart route that appends to a process-lifetime
history list.

Modelling choices, stated once:
* JavaScript numbers are modelled by `JNum`: an exact rational or `nan`.
  IEEE-754 rounding is not modelled (the claims are about exact arithmetic
  and NaN propagation); JS `x / 0 = ±Infinity` is collapsed to `nan`, which
  no claim exercises since every divisor in the code is positive.
* Python's `round(x, 2)` is modelled by `round2` using Mathlib's `round`
  (half away from zero at .5); Python's float round differs only at exact
  representational ties, which no claim depends on.
* The external Yahoo-Finance fetch is an oracle argument: `none` means the
  fetch raised, `some xs` means it returned the series `xs` (possibly empty,
  matching `hist.empty`). `random.uniform(-0.1, 0.1)` is an oracle `u : ℚ`.
* The JS object `portfolio.stocks` is an association list with unique keys;
  `setStock` replaces in place or appends, `removeStock` deletes, matching
  JS property update / `delete`.
-/

namespace TradingSim

/-- JS `String.prototype.toUpperCase()` / Python `str.upper()`, modelled by a
structurally recursive character map (core's `String.toUpper` computes the
same result but is defined by well-founded recursion on byte positions). -/
def jsToUpper (s : String) : String := String.mk (s.data.map Char.toUpper)

/-- JavaScript number: an exact rational, or NaN. -/
inductive JNum where
  | nan : JNum
  | num : ℚ → JNum
deriving DecidableEq, Repr

/-- JS `+` : NaN propagates. -/
def jadd : JNum → JNum → JNum
  | .num a, .num b => .num (a + b)
  | _, _ => .nan

/-- JS `-` : NaN propagates. -/
def jsub : JNum → JNum → JNum
  | .num a, .num b => .num (a - b)
  | _, _ => .nan

/-- JS `*` : NaN propagates. -/
def jmul : JNum → JNum → JNum
  | .num a, .num b => .num (a * b)
  | _, _ => .nan

/-- JS `/` : NaN propagates; division by zero collapsed to NaN (see header). -/
def jdiv : JNum → JNum → JNum
  | .num a, .num b => if b = 0 then .nan else .num (a / b)
  | _, _ => .nan

/-- JS `<=` : any comparison with NaN is false. -/
def jle : JNum → JNum → Bool
  | .num a, .num b => decide (a ≤ b)
  | _, _ => false

/-- JS `<` : any comparison with NaN is false. -/
def jlt : JNum → JNum → Bool
  | .num a, .num b => decide (a < b)
  | _, _ => false

/-- JS truthiness of a number: 0 and NaN are falsy. -/
def jtruthy : JNum → Bool
  | .num a => decide (a ≠ 0)
  | .nan => false

/-- One entry of `portfolio.stocks`: `{ quantity, avg_price, currentPrice }`. -/
structure Holding where
  quantity : JNum
  avg_price : JNum
  currentPrice : JNum
deriving DecidableEq, Repr

/-- The client-side `portfolio` object: `{ cash, stocks }`. -/
structure Portfolio where
  cash : JNum
  stocks : List (String × Holding)
deriving DecidableEq, Repr

/-- JS property read `portfolio.stocks[symbol]` (`none` = `undefined`). -/
def lookupStock (s : String) : List (String × Holding) → Option Holding
  | [] => none
  | kv :: rest => if kv.1 = s then some kv.2 else lookupStock s rest

/-- JS property write `portfolio.stocks[symbol] = h`: replace in place, or append. -/
def setStock (s : String) (h : Holding) : List (String × Holding) → List (String × Holding)
  | [] => [(s, h)]
  | kv :: rest => if kv.1 = s then (s, h) :: rest else kv :: setStock s h rest

/-- JS `delete portfolio.stocks[symbol]`. -/
def removeStock (s : String) : List (String × Holding) → List (String × Holding)
  | [] => []
  | kv :: rest => if kv.1 = s then removeStock s rest else kv :: removeStock s rest

/-- The `alert(...)` message each branch of `buyStock` / `sellStock` shows. -/
inductive Alert where
  | invalidInput
  | priceUnavailable
  | insufficientFunds
  | notEnoughShares
  | bought
  | sold
deriving DecidableEq, Repr

/-- The JS `buyStock()` function. `symInput` is the raw text field value,
`quantity` the `parseInt` result (NaN representable), `price` the value
returned by the synchronous `fetchCurrentPrice` round trip. Returns the
portfolio after the call together with the alert shown. -/
def buyStock (port : Portfolio) (symInput : String) (quantity : JNum) (price : JNum) :
    Portfolio × Alert :=
  let symbol := jsToUpper symInput
  if symbol = "" ∨ jle quantity (JNum.num 0) then
    (port, .invalidInput)
  else if jtruthy price = false then
    (port, .priceUnavailable)
  else
    let totalCost := jmul price quantity
    if jlt port.cash totalCost then
      (port, .insufficientFunds)
    else
      let cash' := jsub port.cash totalCost
      match lookupStock symbol port.stocks with
      | some h =>
          let newAvg := jdiv (jadd (jmul h.quantity h.avg_price) (jmul quantity price))
            (jadd h.quantity quantity)
          (⟨cash', setStock symbol ⟨jadd h.quantity quantity, newAvg, price⟩ port.stocks⟩,
            .bought)
      | none =>
          (⟨cash', setStock symbol ⟨quantity, price, price⟩ port.stocks⟩, .bought)

/-- The JS `sellStock()` function; same conventions as `buyStock`. Note the
source checks share sufficiency before fetching the price. -/
def sellStock (port : Portfolio) (symInput : String) (quantity : JNum) (price : JNum) :
    Portfolio × Alert :=
  let symbol := jsToUpper symInput
  if symbol = "" ∨ jle quantity (JNum.num 0) then
    (port, .invalidInput)
  else
    match lookupStock symbol port.stocks with
    | none => (port, .notEnoughShares)
    | some h =>
        if jlt h.quantity quantity then
          (port, .notEnoughShares)
        else if jtruthy price = false then
          (port, .priceUnavailable)
        else
          let cash' := jadd port.cash (jmul price quantity)
          let newQty := jsub h.quantity quantity
          if newQty = JNum.num 0 then
            (⟨cash', removeStock symbol port.stocks⟩, .sold)
          else
            (⟨cash', setStock symbol ⟨newQty, h.avg_price, h.currentPrice⟩ port.stocks⟩, .sold)

/-- Python `round(x, 2)`: round to 2 decimal places. -/
def round2 (x : ℚ) : ℚ := ((round (100 * x) : ℤ) : ℚ) / 100

/-- The route `GET /get_stock_price/<symbol>` (`api_get_stock_price`).
`u` is the oracle for `random.uniform(-0.1, 0.1)`; `fetch` is the oracle for
`yf.Ticker(symbol).history(period="1d")['Close']`: `none` = the fetch raised,
`some closes` = the returned daily-close series (`iloc[-1]` is its last
element, the empty series is `hist.empty`). Returns the JSON `price` field. -/
def api_get_stock_price (symbol : String) (u : ℚ) (fetch : Option (List ℚ)) : ℚ :=
  if jsToUpper symbol = "RANDOM" then
    round2 (100 * (1 + u))
  else
    match fetch with
    | none => 0
    | some closes =>
        match closes.getLast? with
        | none => 0
        | some c => round2 c

/-- The dead-code helper `get_stock_price` at the top of the file: same logic
as the route. -/
def get_stock_price (symbol : String) (u : ℚ) (fetch : Option (List ℚ)) : ℚ :=
  if jsToUpper symbol = "RANDOM" then
    round2 (100 * (1 + u))
  else
    match fetch with
    | none => 0
    | some closes =>
        match closes.getLast? with
        | none => 0
        | some c => round2 c

/-- Response of a stock-chart route: the empty string `""`, or a rendered
chart identified by the (date, close) series it plots (the PNG encoding is
not modelled). -/
inductive StockChartResp where
  | empty
  | rendered (series : List (ℕ × ℚ))
deriving DecidableEq, Repr

/-- The route `GET /get_stock_price_chart/<symbol>`. `fetch` is the oracle
for `yf.Ticker(symbol).history(period="1y")['Close']`, with the same
convention as in `api_get_stock_price`. -/
def api_get_stock_price_chart (symbol : String) (fetch : Option (List (ℕ × ℚ))) :
    StockChartResp :=
  if jsToUpper symbol = "RANDOM" then
    .empty
  else
    match fetch with
    | none => .empty
    | some hist => if hist = [] then .empty else .rendered hist

/-- The dead-code helper `get_stock_history`: returns the pair
(`hist.index`, `hist.values`), empty for RANDOM / empty fetch / error. -/
def get_stock_history (symbol : String) (fetch : Option (List (ℕ × ℚ))) :
    List ℕ × List ℚ :=
  if jsToUpper symbol = "RANDOM" then
    ([], [])
  else
    match fetch with
    | none => ([], [])
    | some hist => if hist = [] then ([], []) else (hist.map (·.1), hist.map (·.2))

/-- A parsed JSON value, as delivered by Flask's `request.get_json()`. -/
inductive JVal where
  | null
  | bool (b : Bool)
  | num (q : ℚ)
  | str (s : String)
  | arr (xs : List JVal)
  | obj (fields : List (String × JVal))

/-- Python falsiness of a JSON value (`if not local_portfolio`). -/
def pyFalsy : JVal → Bool
  | .null => true
  | .bool b => !b
  | .num q => decide (q = 0)
  | .str s => decide (s = "")
  | .arr xs => xs.isEmpty
  | .obj fs => fs.isEmpty

/-- First field of a JSON object with the given key. -/
def getField (k : String) : List (String × JVal) → Option JVal
  | [] => none
  | kv :: rest => if kv.1 = k then some kv.2 else getField k rest

/-- Python `d[k]`: KeyError when missing, TypeError when not a dict —
both modelled as the error of an `Except`. -/
def pyGetItem (j : JVal) (k : String) : Except Unit JVal :=
  match j with
  | .obj fs =>
      match getField k fs with
      | some v => .ok v
      | none => .error ()
  | _ => .error ()

/-- Python `d.get(k, dflt)`: raises when `d` is not a dict. -/
def pyGet (j : JVal) (k : String) (dflt : JVal) : Except Unit JVal :=
  match j with
  | .obj fs => .ok ((getField k fs).getD dflt)
  | _ => .error ()

/-- Interpret a JSON value as a number for arithmetic. Python `bool` is an
`int` subclass (`True == 1`, `False == 0`), so booleans participate in the
arithmetic and in `round`. Strings, lists, `None` and dicts make the
handler raise: even where Python's `*` would accept them (`str * int`,
`list * int`), the subsequent `total += …` or final `round(total, 2)`
raises a `TypeError`, so an immediate error has the same observable
outcome for the route. -/
def asNum : JVal → Except Unit ℚ
  | .num q => .ok q
  | .bool b => .ok (if b then 1 else 0)
  | _ => .error ()

/-- One iteration of the loop in `compute_local_portfolio_value`:
`cprice = data.get("currentPrice", data["avg_price"]); cprice * data["quantity"]`.
Python evaluates the default argument `data["avg_price"]` eagerly, before
`.get`, so a missing `avg_price` raises even when `currentPrice` exists. -/
def stockTerm (data : JVal) : Except Unit ℚ := do
  let avg ← pyGetItem data "avg_price"
  let cprice ← pyGet data "currentPrice" avg
  let c ← asNum cprice
  let qv ← pyGetItem data "quantity"
  let q ← asNum qv
  pure (c * q)

/-- The `for sym, data in local_portfolio["stocks"].items()` loop, threading
the running total. -/
def sumStocks : List (String × JVal) → ℚ → Except Unit ℚ
  | [], acc => .ok acc
  | (_, data) :: rest, acc => do
      let t ← stockTerm data
      sumStocks rest (acc + t)

/-- `compute_local_portfolio_value(local_portfolio)`: the total value of the
submitted snapshot rounded to 2 decimals, or the exception the Python code
would raise on a non-portfolio-shaped value. -/
def compute_local_portfolio_value (j : JVal) : Except Unit ℚ := do
  let cashV ← pyGetItem j "cash"
  let cash ← asNum cashV
  let stocksV ← pyGetItem j "stocks"
  match stocksV with
  | .obj fs => do
      let total ← sumStocks fs cash
      pure (round2 total)
  | _ => .error ()

/-- Response of the portfolio-chart route: empty string, or a rendered chart
identified by the (timestamp, value) samples it plots (one marker per
sample; the `strftime` label formatting and PNG encoding are not modelled). -/
inductive ChartResp where
  | empty
  | rendered (points : List (ℕ × ℚ))
deriving DecidableEq, Repr

/-- Outcome of one request to the portfolio-chart route: a normal JSON
response, or an exception escaping the handler (Flask turns it into an
HTTP 500 error page). -/
inductive ChartOutcome where
  | resp (c : ChartResp)
  | serverError
deriving DecidableEq, Repr

/-- The route `POST /get_portfolio_chart`. `body` is the result of
`request.get_json()` (`none` when Flask yields no parsed object), `now` the
timestamp oracle for `datetime.now()`, `history` the module-level
`portfolio_history` list before the call. Returns the outcome and the
history after the call. -/
def get_portfolio_chart (body : Option JVal) (now : ℕ) (history : List (ℕ × ℚ)) :
    ChartOutcome × List (ℕ × ℚ) :=
  match body with
  | none => (.resp .empty, history)
  | some j =>
      if pyFalsy j then
        (.resp .empty, history)
      else
        match compute_local_portfolio_value j with
        | .error _ => (.serverError, history)
        | .ok val =>
            let history' := history ++ [(now, val)]
            (.resp (.rendered history'), history')

/-- A well-formed stock entry of the client snapshot: `quantity`, `avg_price`
and optionally `currentPrice`, all numbers. -/
structure SHolding where
  quantity : ℚ
  avg_price : ℚ
  currentPrice : Option ℚ
deriving DecidableEq, Repr

/-- A well-formed client portfolio snapshot, as `JSON.stringify(portfolio)`
produces it. -/
structure ClientPortfolio where
  cash : ℚ
  stocks : List (String × SHolding)
deriving DecidableEq, Repr

/-- JSON encoding of one holding. -/
def encodeHolding (h : SHolding) : JVal :=
  .obj ([("quantity", .num h.quantity), ("avg_price", .num h.avg_price)] ++
    (match h.currentPrice with
     | some c => [("currentPrice", .num c)]
     | none => []))

/-- JSON encoding of a client portfolio snapshot (a "valid body"). -/
def encodePortfolio (p : ClientPortfolio) : JVal :=
  .obj [("cash", .num p.cash),
        ("stocks", .obj (p.stocks.map (fun kv => (kv.1, encodeHolding kv.2))))]

/-- Specification-level value of a snapshot: cash plus
Σ (currentPrice, falling back to avg_price) × quantity, before rounding. -/
def localPortfolioValue (p : ClientPortfolio) : ℚ :=
  p.cash + (p.stocks.map (fun kv => kv.2.currentPrice.getD kv.2.avg_price * kv.2.quantity)).sum

/-- A sequence of portfolio-chart calls with valid bodies, threading the
server history. -/
def runValidCalls : List (ClientPortfolio × ℕ) → List (ℕ × ℚ) → List (ℕ × ℚ)
  | [], h => h
  | (p, t) :: rest, h =>
      runValidCalls rest (get_portfolio_chart (some (encodePortfolio p)) t h).2

/-! Lemmas about the association-list operations. -/

theorem lookupStock_setStock_self (s : String) (h : Holding) (st : List (String × Holding)) :
    lookupStock s (setStock s h st) = some h := by
  induction st with
  | nil => simp [setStock, lookupStock]
  | cons kv rest ih =>
      by_cases hk : kv.1 = s
      · simp [setStock, lookupStock, hk]
      · simp [setStock, lookupStock, hk, ih]

theorem lookupStock_removeStock_self (s : String) (st : List (String × Holding)) :
    lookupStock s (removeStock s st) = none := by
  induction st with
  | nil => rfl
  | cons kv rest ih =>
      by_cases hk : kv.1 = s
      · simp [removeStock, hk, ih]
      · simp [removeStock, lookupStock, hk, ih]

/-- C1: a successful Buy of `q2 > 0` shares at available price `p2 > 0` with
sufficient cash deducts `p2·q2` from cash; on an existing holding of `q1`
shares at average `p1` it sets quantity to `q1+q2`, average price to
`(q1·p1 + q2·p2)/(q1+q2)` and `currentPrice` to `p2`; on a fresh symbol it
creates the holding `{quantity = q2, avg_price = p2, currentPrice = p2}`. -/
theorem buy_weighted_average (port : Portfolio) (s : String) (q2 p2 c : ℚ)
    (hs : jsToUpper s ≠ "")
    (hq : 0 < q2) (hp : 0 < p2)
    (hcash : port.cash = JNum.num c)
    (hfunds : p2 * q2 ≤ c) :
    (buyStock port s (JNum.num q2) (JNum.num p2)).2 = Alert.bought ∧
    (buyStock port s (JNum.num q2) (JNum.num p2)).1.cash = JNum.num (c - p2 * q2) ∧
    (∀ q1 p1 cp, lookupStock (jsToUpper s) port.stocks = some ⟨JNum.num q1, JNum.num p1, cp⟩ →
        0 < q1 →
        lookupStock (jsToUpper s) (buyStock port s (JNum.num q2) (JNum.num p2)).1.stocks =
          some ⟨JNum.num (q1 + q2), JNum.num ((q1 * p1 + q2 * p2) / (q1 + q2)),
            JNum.num p2⟩) ∧
    (lookupStock (jsToUpper s) port.stocks = none →
        lookupStock (jsToUpper s) (buyStock port s (JNum.num q2) (JNum.num p2)).1.stocks =
          some ⟨JNum.num q2, JNum.num p2, JNum.num p2⟩) := by
  have hg1 : jle (JNum.num q2) (JNum.num 0) = false := by
    simp [jle]; linarith
  have hg2 : jtruthy (JNum.num p2) = true := by
    simp [jtruthy]; linarith
  have hg3 : jlt (JNum.num c) (jmul (JNum.num p2) (JNum.num q2)) = false := by
    simp [jlt, jmul]; linarith
  refine ⟨?_, ?_, ?_, ?_⟩
  · simp only [buyStock, hcash, hg1, hg2, hg3]
    simp [hs]
    rcases hl : lookupStock (jsToUpper s) port.stocks with _ | h <;> simp
  · simp only [buyStock, hcash, hg1, hg2, hg3]
    simp [hs]
    rcases hl : lookupStock (jsToUpper s) port.stocks with _ | h <;> simp [jsub, jmul]
  · intro q1 p1 cp hl hq1
    simp only [buyStock, hcash, hg1, hg2, hg3]
    simp [hs, hl]
    have hden : q1 + q2 ≠ 0 := by linarith
    simp [jadd, jmul, jdiv, hden, lookupStock_setStock_self]
  · intro hl
    simp only [buyStock, hcash, hg1, hg2, hg3]
    simp [hs, hl, lookupStock_setStock_self]

/-- Witness for `buy_weighted_average`: buying 10 more shares of a symbol held
10 × $100 at price $110 from $10000 cash. -/
theorem buy_weighted_average_witness :
    (buyStock ⟨JNum.num 10000, [("A", ⟨JNum.num 10, JNum.num 100, JNum.num 100⟩)]⟩
        "A" (JNum.num 10) (JNum.num 110)).1.cash = JNum.num (10000 - 110 * 10) ∧
    lookupStock "A"
        (buyStock ⟨JNum.num 10000, [("A", ⟨JNum.num 10, JNum.num 100, JNum.num 100⟩)]⟩
          "A" (JNum.num 10) (JNum.num 110)).1.stocks =
      some ⟨JNum.num (10 + 10), JNum.num ((10 * 100 + 10 * 110) / (10 + 10)),
        JNum.num 110⟩ := by
  have h := buy_weighted_average
    ⟨JNum.num 10000, [("A", ⟨JNum.num 10, JNum.num 100, JNum.num 100⟩)]⟩
    "A" 10 110 10000 (by decide) (by norm_num) (by norm_num) rfl (by norm_num)
  exact ⟨h.2.1, h.2.2.1 10 100 (JNum.num 100) rfl (by norm_num)⟩

/-- C2: a successful Sell of `q` shares from a holding of `h0 ≥ q` shares at
available price `p > 0` credits cash by `p·q`, decrements the quantity by
`q`, leaves `avg_price` (and `currentPrice`) unchanged, and removes the
holding exactly when the resulting quantity is zero. -/
theorem sell_updates (port : Portfolio) (s : String) (q p c h0 : ℚ) (a cp : JNum)
    (hs : jsToUpper s ≠ "")
    (hlook : lookupStock (jsToUpper s) port.stocks = some ⟨JNum.num h0, a, cp⟩)
    (hq : 0 < q) (hp : 0 < p) (hqh : q ≤ h0)
    (hcash : port.cash = JNum.num c) :
    (sellStock port s (JNum.num q) (JNum.num p)).2 = Alert.sold ∧
    (sellStock port s (JNum.num q) (JNum.num p)).1.cash = JNum.num (c + p * q) ∧
    (h0 = q →
        lookupStock (jsToUpper s) (sellStock port s (JNum.num q) (JNum.num p)).1.stocks = none) ∧
    (h0 ≠ q →
        lookupStock (jsToUpper s) (sellStock port s (JNum.num q) (JNum.num p)).1.stocks =
          some ⟨JNum.num (h0 - q), a, cp⟩) := by
  have hg1 : jle (JNum.num q) (JNum.num 0) = false := by
    simp [jle]; linarith
  have hg2 : jtruthy (JNum.num p) = true := by
    simp [jtruthy]; linarith
  have hg3 : jlt (JNum.num h0) (JNum.num q) = false := by
    simp [jlt]; linarith
  refine ⟨?_, ?_, ?_, ?_⟩
  · simp only [sellStock, hcash, hg1, hg2, hg3, hlook]
    simp [hs]
    by_cases hz : h0 - q = 0 <;> simp [jsub, hz]
  · simp only [sellStock, hcash, hg1, hg2, hg3, hlook]
    simp [hs]
    by_cases hz : h0 - q = 0 <;> simp [jsub, jadd, jmul, hz]
  · intro hz
    simp only [sellStock, hcash, hg1, hg2, hg3, hlook]
    simp [hs]
    simp [jsub, hz, lookupStock_removeStock_self]
  · intro hz
    have hz' : h0 - q ≠ 0 := fun hc => hz (by linarith [hc, sub_eq_zero.mp hc])
    simp only [sellStock, hcash, hg1, hg2, hg3, hlook]
    simp [hs]
    simp [jsub, hz', lookupStock_setStock_self]

/-- Witness for `sell_updates`: selling 5 of 10 shares at $110 from $9000
cash (the spec's own worked example). -/
theorem sell_updates_witness :
    (sellStock ⟨JNum.num 9000, [("A", ⟨JNum.num 10, JNum.num 100, JNum.num 100⟩)]⟩
        "A" (JNum.num 5) (JNum.num 110)).1.cash = JNum.num (9000 + 110 * 5) ∧
    lookupStock "A"
        (sellStock ⟨JNum.num 9000, [("A", ⟨JNum.num 10, JNum.num 100, JNum.num 100⟩)]⟩
          "A" (JNum.num 5) (JNum.num 110)).1.stocks =
      some ⟨JNum.num (10 - 5), JNum.num 100, JNum.num 100⟩ := by
  have h := sell_updates
    ⟨JNum.num 9000, [("A", ⟨JNum.num 10, JNum.num 100, JNum.num 100⟩)]⟩
    "A" 5 110 9000 10 (JNum.num 100) (JNum.num 100)
    (by decide) rfl (by norm_num) (by norm_num) (by norm_num) rfl
  exact ⟨h.2.1, h.2.2.2 (by norm_num)⟩

/-- C3: a Buy or Sell whose validation fails — non-positive quantity,
falsy (zero/unresolvable) price, Buy with `cash < price·quantity`, or Sell
with no holding or more shares requested than held — returns the portfolio
unchanged and shows a failure alert (neither `bought` nor `sold`). -/
theorem trade_validation_no_mutation (port : Portfolio) (s : String) (q p : JNum) :
    (jle q (JNum.num 0) = true ∨ jtruthy p = false ∨
        jlt port.cash (jmul p q) = true →
      ∃ al, buyStock port s q p = (port, al) ∧ al ≠ Alert.bought ∧ al ≠ Alert.sold) ∧
    (jle q (JNum.num 0) = true ∨
        (∀ h, lookupStock (jsToUpper s) port.stocks = some h → jlt h.quantity q = true) ∨
        jtruthy p = false →
      ∃ al, sellStock port s q p = (port, al) ∧ al ≠ Alert.bought ∧ al ≠ Alert.sold) := by
  constructor
  · intro h
    simp only [buyStock]
    split
    · exact ⟨Alert.invalidInput, rfl, by simp, by simp⟩
    · split
      · exact ⟨Alert.priceUnavailable, rfl, by simp, by simp⟩
      · split
        · exact ⟨Alert.insufficientFunds, rfl, by simp, by simp⟩
        · rename_i hg1 hg2 hg3
          exfalso
          rcases h with h | h | h
          · exact hg1 (Or.inr h)
          · exact hg2 h
          · exact hg3 h
  · intro h
    simp only [sellStock]
    split
    · exact ⟨Alert.invalidInput, rfl, by simp, by simp⟩
    · rename_i hg1
      split
      · exact ⟨Alert.notEnoughShares, rfl, by simp, by simp⟩
      · rename_i h' hl
        split
        · exact ⟨Alert.notEnoughShares, rfl, by simp, by simp⟩
        · split
          · exact ⟨Alert.priceUnavailable, rfl, by simp, by simp⟩
          · rename_i hg2 hg3
            exfalso
            rcases h with h | h | h
            · exact hg1 (Or.inr h)
            · simp [h h' hl] at hg2
            · exact hg3 h

/-- Witness for `trade_validation_no_mutation`: buying 10 shares at $100 with
only $100 cash fails and mutates nothing; selling from an empty portfolio
fails and mutates nothing. -/
theorem trade_validation_no_mutation_witness :
    (∃ al, buyStock ⟨JNum.num 100, []⟩ "A" (JNum.num 10) (JNum.num 100) =
        (⟨JNum.num 100, []⟩, al) ∧ al ≠ Alert.bought ∧ al ≠ Alert.sold) ∧
    (∃ al, sellStock ⟨JNum.num 100, []⟩ "A" (JNum.num 10) (JNum.num 100) =
        (⟨JNum.num 100, []⟩, al) ∧ al ≠ Alert.bought ∧ al ≠ Alert.sold) := by
  refine ⟨(trade_validation_no_mutation ⟨JNum.num 100, []⟩ "A"
      (JNum.num 10) (JNum.num 100)).1 ?_,
    (trade_validation_no_mutation ⟨JNum.num 100, []⟩ "A"
      (JNum.num 10) (JNum.num 100)).2 ?_⟩
  · exact Or.inr (Or.inr (by norm_num [jlt, jmul]))
  · refine Or.inr (Or.inl ?_)
    intro h hl
    simp [lookupStock] at hl

/-- C6: a successful Buy of `q` shares at price `p` followed by a successful
Sell of `q` shares of the same symbol at the same price returns cash to its
pre-trade value. -/
theorem buy_sell_roundtrip (port : Portfolio) (s : String) (q p c : ℚ)
    (hs : jsToUpper s ≠ "") (hq : 0 < q) (hp : 0 < p)
    (hcash : port.cash = JNum.num c) (hfunds : p * q ≤ c)
    (hhold : ∀ h, lookupStock (jsToUpper s) port.stocks = some h →
        ∃ q1, h.quantity = JNum.num q1 ∧ 0 ≤ q1) :
    (buyStock port s (JNum.num q) (JNum.num p)).2 = Alert.bought ∧
    (sellStock (buyStock port s (JNum.num q) (JNum.num p)).1 s
        (JNum.num q) (JNum.num p)).2 = Alert.sold ∧
    (sellStock (buyStock port s (JNum.num q) (JNum.num p)).1 s
        (JNum.num q) (JNum.num p)).1.cash = port.cash := by
  have hg1 : jle (JNum.num q) (JNum.num 0) = false := by
    simp [jle]; linarith
  have hg2 : jtruthy (JNum.num p) = true := by
    simp [jtruthy]; linarith
  have hg3 : jlt (JNum.num c) (jmul (JNum.num p) (JNum.num q)) = false := by
    simp [jlt, jmul]; linarith
  have hring : JNum.num (c - p * q + p * q) = JNum.num c := by
    congr 1; ring
  rcases hl : lookupStock (jsToUpper s) port.stocks with _ | h
  · have hb : buyStock port s (JNum.num q) (JNum.num p) =
        (⟨JNum.num (c - p * q),
          setStock (jsToUpper s) ⟨JNum.num q, JNum.num p, JNum.num p⟩ port.stocks⟩,
          Alert.bought) := by
      simp only [buyStock, hcash, hg1, hg2, hg3]
      simp [hs, hl, jsub, jmul]
    refine ⟨by rw [hb], ?_, ?_⟩ <;>
      simp only [hb, sellStock, lookupStock_setStock_self, hg1, hg2] <;>
      simp [hs, jlt, jsub, jadd, jmul, not_lt.mpr (le_refl q), hcash, hring]
  · obtain ⟨q1, hq1, hq1pos⟩ := hhold h hl
    have hb : buyStock port s (JNum.num q) (JNum.num p) =
        (⟨JNum.num (c - p * q),
          setStock (jsToUpper s)
            ⟨JNum.num (q1 + q),
              jdiv (jadd (jmul h.quantity h.avg_price) (jmul (JNum.num q) (JNum.num p)))
                (jadd h.quantity (JNum.num q)),
              JNum.num p⟩ port.stocks⟩, Alert.bought) := by
      simp only [buyStock, hcash, hg1, hg2, hg3]
      simp [hs, hl, jsub, jmul, jadd, hq1]
    have hlt : jlt (JNum.num (q1 + q)) (JNum.num q) = false := by
      simp [jlt]; linarith
    refine ⟨by rw [hb], ?_, ?_⟩ <;>
      simp only [hb, sellStock, lookupStock_setStock_self, hg1, hg2, hlt] <;>
      simp [hs, jsub, jadd, jmul, hcash, hring] <;>
      split <;> rfl

/-- Witness for `buy_sell_roundtrip`: buy 10 then sell 10 of a fresh symbol
at $100 from $10000 cash. -/
theorem buy_sell_roundtrip_witness :
    (sellStock (buyStock ⟨JNum.num 10000, []⟩ "A" (JNum.num 10) (JNum.num 100)).1 "A"
        (JNum.num 10) (JNum.num 100)).1.cash = (⟨JNum.num 10000, []⟩ : Portfolio).cash := by
  have h := buy_sell_roundtrip ⟨JNum.num 10000, []⟩ "A" 10 100 10000
    (by decide) (by norm_num) (by norm_num) rfl (by norm_num)
    (fun h hl => by simp [lookupStock] at hl)
  exact h.2.2

/-- C10: a `parseInt`-NaN quantity passes the `quantity <= 0` guard of both
Buy and Sell (comparisons with NaN are false); a Buy with NaN quantity and a
positive resolved price also passes the `cash < NaN` funds check, mutates
the portfolio, and sets cash to NaN. -/
theorem nan_quantity_corrupts_cash (port : Portfolio) (s : String) (p c : ℚ)
    (hs : jsToUpper s ≠ "") (hp : 0 < p) (hcash : port.cash = JNum.num c) :
    (buyStock port s JNum.nan (JNum.num p)).2 = Alert.bought ∧
    (buyStock port s JNum.nan (JNum.num p)).1.cash = JNum.nan ∧
    (buyStock port s JNum.nan (JNum.num p)).1 ≠ port ∧
    (sellStock port s JNum.nan (JNum.num p)).2 ≠ Alert.invalidInput := by
  have hg2 : jtruthy (JNum.num p) = true := by
    simp [jtruthy]; linarith
  have hbuy : (buyStock port s JNum.nan (JNum.num p)).2 = Alert.bought ∧
      (buyStock port s JNum.nan (JNum.num p)).1.cash = JNum.nan := by
    simp only [buyStock, hcash, hg2]
    rcases hl : lookupStock (jsToUpper s) port.stocks with _ | h <;>
      simp [hs, jle, jlt, jmul, jsub, hl]
  refine ⟨hbuy.1, hbuy.2, ?_, ?_⟩
  · intro heq
    have : (buyStock port s JNum.nan (JNum.num p)).1.cash = JNum.num c := by
      rw [heq, hcash]
    rw [hbuy.2] at this
    exact JNum.noConfusion this
  · simp only [sellStock]
    split
    · rename_i hg
      rcases hg with hg | hg
      · exact absurd hg hs
      · simp [jle] at hg
    · split
      · simp
      · split
        · simp
        · split
          · simp
          · split <;> simp

/-- Witness for `nan_quantity_corrupts_cash`: NaN quantity on a fresh symbol
with price $100 and $10000 cash. -/
theorem nan_quantity_corrupts_cash_witness :
    (buyStock ⟨JNum.num 10000, []⟩ "A" JNum.nan (JNum.num 100)).2 = Alert.bought ∧
    (buyStock ⟨JNum.num 10000, []⟩ "A" JNum.nan (JNum.num 100)).1.cash = JNum.nan := by
  have h := nan_quantity_corrupts_cash ⟨JNum.num 10000, []⟩ "A" 100 10000
    (by decide) (by norm_num) rfl
  exact ⟨h.1, h.2.1⟩

/-! Facts about 2-decimal rounding. -/

theorem round2_mono {x y : ℚ} (h : x ≤ y) : round2 x ≤ round2 y := by
  unfold round2
  have hr : round (100 * x) ≤ round (100 * y) := by
    rw [round_eq, round_eq]
    exact Int.floor_le_floor (by linarith)
  have : ((round (100 * x) : ℤ) : ℚ) ≤ ((round (100 * y) : ℤ) : ℚ) := by
    exact_mod_cast hr
  linarith

theorem round2_intCast (n : ℤ) : round2 ((n : ℚ)) = (n : ℚ) := by
  unfold round2
  have : (100 : ℚ) * (n : ℚ) = ((100 * n : ℤ) : ℚ) := by push_cast; ring
  rw [this, round_intCast]
  push_cast
  ring

/-- C7: for a non-RANDOM symbol, when the external fetch raises or returns
no data, the price route answers 0 and the chart route answers the empty
chart string; both are ordinary responses, not server errors. -/
theorem fetch_failure_sentinels (s : String) (u : ℚ)
    (hs : jsToUpper s ≠ "RANDOM") :
    api_get_stock_price s u none = 0 ∧
    api_get_stock_price s u (some []) = 0 ∧
    api_get_stock_price_chart s none = StockChartResp.empty ∧
    api_get_stock_price_chart s (some []) = StockChartResp.empty := by
  refine ⟨?_, ?_, ?_, ?_⟩ <;> simp [api_get_stock_price, api_get_stock_price_chart, hs]

/-- Witness for `fetch_failure_sentinels` at the symbol "AAPL". -/
theorem fetch_failure_sentinels_witness :
    api_get_stock_price "AAPL" 0 none = 0 ∧
    api_get_stock_price_chart "AAPL" none = StockChartResp.empty := by
  have h := fetch_failure_sentinels "AAPL" 0 (by decide)
  exact ⟨h.1, h.2.2.1⟩

/-- C8: for a symbol case-insensitively equal to "RANDOM", the returned
price is `round2 (100·(1+u))` for the fresh uniform draw `u ∈ [-0.1, 0.1]`:
it lies in [90, 110], is an integer number of cents (2-decimal rounded),
does not depend on the external fetch (which is never consulted), and the
dead-code helper `get_stock_price` agrees with the route. -/
theorem random_price_range (s : String) (u : ℚ) (f₁ f₂ : Option (List ℚ))
    (hs : jsToUpper s = "RANDOM") (h1 : -(1 / 10) ≤ u) (h2 : u ≤ 1 / 10) :
    90 ≤ api_get_stock_price s u f₁ ∧ api_get_stock_price s u f₁ ≤ 110 ∧
    (∃ n : ℤ, api_get_stock_price s u f₁ = (n : ℚ) / 100) ∧
    api_get_stock_price s u f₁ = api_get_stock_price s u f₂ ∧
    get_stock_price s u f₁ = api_get_stock_price s u f₁ := by
  have hval : api_get_stock_price s u f₁ = round2 (100 * (1 + u)) := by
    simp [api_get_stock_price, hs]
  have hlo : 90 ≤ round2 (100 * (1 + u)) := by
    have h90 : round2 ((90 : ℤ) : ℚ) = ((90 : ℤ) : ℚ) := round2_intCast 90
    have := round2_mono (x := ((90 : ℤ) : ℚ)) (y := 100 * (1 + u)) (by push_cast; linarith)
    rw [h90] at this
    push_cast at this
    linarith
  have hhi : round2 (100 * (1 + u)) ≤ 110 := by
    have h110 : round2 ((110 : ℤ) : ℚ) = ((110 : ℤ) : ℚ) := round2_intCast 110
    have := round2_mono (x := 100 * (1 + u)) (y := ((110 : ℤ) : ℚ)) (by push_cast; linarith)
    rw [h110] at this
    push_cast at this
    linarith
  refine ⟨by rw [hval]; exact hlo, by rw [hval]; exact hhi,
    ⟨round (100 * (100 * (1 + u))), by rw [hval]; rfl⟩, ?_, ?_⟩ <;>
    simp [api_get_stock_price, get_stock_price, hs]

/-- Witness for `random_price_range`: the draw `u = 1/100` for the symbol
"random", with two distinct fetch outcomes. -/
theorem random_price_range_witness :
    90 ≤ api_get_stock_price "random" (1 / 100) none ∧
    api_get_stock_price "random" (1 / 100) none ≤ 110 ∧
    api_get_stock_price "random" (1 / 100) none =
      api_get_stock_price "random" (1 / 100) (some [5]) := by
  have h := random_price_range "random" (1 / 100) none (some [5])
    (by decide) (by norm_num) (by norm_num)
  exact ⟨h.1, h.2.1, h.2.2.2.1⟩

/-- C9: for every casing of "RANDOM", the stock-chart route returns the
empty chart string, and the dead-code helper `get_stock_history` returns
the empty series. -/
theorem random_chart_empty (s : String) (f : Option (List (ℕ × ℚ)))
    (hs : jsToUpper s = "RANDOM") :
    api_get_stock_price_chart s f = StockChartResp.empty ∧
    get_stock_history s f = ([], []) := by
  constructor <;> simp [api_get_stock_price_chart, get_stock_history, hs]

/-- Witness for `random_chart_empty`: the mixed-case symbol "RaNdOm" with a
non-empty fetch result. -/
theorem random_chart_empty_witness :
    api_get_stock_price_chart "RaNdOm" (some [(1, 5)]) = StockChartResp.empty ∧
    get_stock_history "RaNdOm" (some [(1, 5)]) = ([], []) :=
  random_chart_empty "RaNdOm" (some [(1, 5)]) (by decide)

/-! Lemmas about the portfolio-chart handler. -/

theorem pyFalsy_encodePortfolio (p : ClientPortfolio) :
    pyFalsy (encodePortfolio p) = false := by
  simp [pyFalsy, encodePortfolio]

theorem stockTerm_encodeHolding (h : SHolding) :
    stockTerm (encodeHolding h) = .ok (h.currentPrice.getD h.avg_price * h.quantity) := by
  rcases hcp : h.currentPrice with _ | cp <;>
    simp [stockTerm, encodeHolding, hcp, pyGetItem, pyGet, getField, asNum,
      Bind.bind, Except.bind, Pure.pure, Except.pure]

theorem sumStocks_encode (stocks : List (String × SHolding)) (acc : ℚ) :
    sumStocks (stocks.map (fun kv => (kv.1, encodeHolding kv.2))) acc =
      .ok (acc +
        (stocks.map (fun kv => kv.2.currentPrice.getD kv.2.avg_price * kv.2.quantity)).sum) := by
  induction stocks generalizing acc with
  | nil => simp [sumStocks]
  | cons kv rest ih =>
      simp [sumStocks, stockTerm_encodeHolding, Bind.bind, Except.bind, ih, add_assoc]

theorem compute_encodePortfolio (p : ClientPortfolio) :
    compute_local_portfolio_value (encodePortfolio p) =
      .ok (round2 (localPortfolioValue p)) := by
  simp [compute_local_portfolio_value, encodePortfolio, pyGetItem, getField, asNum,
    sumStocks_encode, localPortfolioValue, Bind.bind, Except.bind, Functor.map,
    Except.map, Pure.pure, Except.pure]

theorem get_portfolio_chart_valid (p : ClientPortfolio) (now : ℕ) (hist : List (ℕ × ℚ)) :
    get_portfolio_chart (some (encodePortfolio p)) now hist =
      (ChartOutcome.resp (ChartResp.rendered
          (hist ++ [(now, round2 (localPortfolioValue p))])),
        hist ++ [(now, round2 (localPortfolioValue p))]) := by
  simp [get_portfolio_chart, pyFalsy_encodePortfolio, compute_encodePortfolio]

theorem runValidCalls_length (calls : List (ClientPortfolio × ℕ)) (h : List (ℕ × ℚ)) :
    (runValidCalls calls h).length = h.length + calls.length := by
  induction calls generalizing h with
  | nil => simp [runValidCalls]
  | cons c rest ih =>
      obtain ⟨p, t⟩ := c
      rw [runValidCalls, ih, get_portfolio_chart_valid]
      simp
      omega

/-- C5: a POST with a valid portfolio body appends exactly one
`(timestamp, value)` sample, where the value is cash plus
Σ (currentPrice, falling back to avg_price) × quantity, rounded to 2
decimals; the response plots exactly the updated history, so after `N`
valid calls from an empty history the chart plots exactly `N` points. -/
theorem portfolio_chart_appends (p : ClientPortfolio) (now : ℕ) (hist : List (ℕ × ℚ)) :
    get_portfolio_chart (some (encodePortfolio p)) now hist =
      (ChartOutcome.resp (ChartResp.rendered
          (hist ++ [(now,
            round2 (p.cash +
              (p.stocks.map
                (fun kv => kv.2.currentPrice.getD kv.2.avg_price * kv.2.quantity)).sum))])),
        hist ++ [(now,
          round2 (p.cash +
            (p.stocks.map
              (fun kv => kv.2.currentPrice.getD kv.2.avg_price * kv.2.quantity)).sum))]) ∧
    (∀ calls : List (ClientPortfolio × ℕ),
      (runValidCalls calls []).length = calls.length) :=
  ⟨get_portfolio_chart_valid p now hist,
   fun calls => by rw [runValidCalls_length]; simp⟩

/-- C4 (counterexample to the claim as stated): the truthy JSON object
`{"foo": 1}` is not a valid portfolio object, yet the route does not answer
an empty chart string — `local_portfolio["cash"]` raises a `KeyError` that
escapes the handler (an HTTP 500), though nothing is appended. -/
theorem portfolio_chart_invalid_body_counterexample :
    get_portfolio_chart (some (JVal.obj [("foo", JVal.num 1)])) 0 [] =
      (ChartOutcome.serverError, []) ∧
    (get_portfolio_chart (some (JVal.obj [("foo", JVal.num 1)])) 0 []).1 ≠
      ChartOutcome.resp ChartResp.empty := by
  constructor
  · rfl
  · intro h
    have : ChartOutcome.serverError = ChartOutcome.resp ChartResp.empty := h
    exact ChartOutcome.noConfusion this

/-- C4 (amended): a missing body or a Python-falsy body (absent / null /
empty object, …) yields the empty chart string with the history unchanged;
a body on which `compute_local_portfolio_value` raises leaves the history
unchanged as well but escapes as a server error, not an empty chart. Note
the raising class is not "every non-portfolio-shaped body": boolean-valued
fields compute as ints (see `asNum`), e.g. `compute_bool_cash` below. -/
theorem portfolio_chart_malformed_amended (body : Option JVal) (now : ℕ)
    (hist : List (ℕ × ℚ))
    (h : body = none ∨ ∃ j, body = some j ∧
        (pyFalsy j = true ∨ ∃ e, compute_local_portfolio_value j = Except.error e)) :
    (get_portfolio_chart body now hist).2 = hist ∧
    ((get_portfolio_chart body now hist).1 = ChartOutcome.resp ChartResp.empty ↔
      (body = none ∨ ∃ j, body = some j ∧ pyFalsy j = true)) := by
  rcases h with rfl | ⟨j, rfl, hj⟩
  · exact ⟨rfl, by simp [get_portfolio_chart]⟩
  · by_cases hf : pyFalsy j = true
    · constructor <;> simp [get_portfolio_chart, hf]
    · rcases hj with hj | ⟨e, he⟩
      · exact absurd hj hf
      · constructor <;> simp [get_portfolio_chart, hf, he]

/-- Sanity check of the bool-is-int semantics: the truthy body
`{"cash": true, "stocks": {}}` is not portfolio-shaped in the strict sense,
yet Python computes `round(True, 2) = 1` and the route appends a sample and
renders a chart — it does not raise. -/
theorem compute_bool_cash (now : ℕ) (hist : List (ℕ × ℚ)) :
    compute_local_portfolio_value
        (JVal.obj [("cash", JVal.bool true), ("stocks", JVal.obj [])]) =
      Except.ok 1 ∧
    get_portfolio_chart
        (some (JVal.obj [("cash", JVal.bool true), ("stocks", JVal.obj [])])) now hist =
      (ChartOutcome.resp (ChartResp.rendered (hist ++ [(now, 1)])),
        hist ++ [(now, 1)]) := by
  have hc : compute_local_portfolio_value
      (JVal.obj [("cash", JVal.bool true), ("stocks", JVal.obj [])]) = Except.ok 1 := by
    simp [compute_local_portfolio_value, pyGetItem, getField, asNum, sumStocks,
      Bind.bind, Except.bind, Functor.map, Except.map, Pure.pure, Except.pure, round2]
  exact ⟨hc, by simp [get_portfolio_chart, pyFalsy, hc]⟩

/-- Witness for `portfolio_chart_malformed_amended`: a missing body. -/
theorem portfolio_chart_malformed_witness :
    (get_portfolio_chart none 0 []).2 = ([] : List (ℕ × ℚ)) ∧
    (get_portfolio_chart none 0 []).1 = ChartOutcome.resp ChartResp.empty := by
  have h := portfolio_chart_malformed_amended none 0 [] (Or.inl rfl)
  exact ⟨h.1, h.2.mpr (Or.inl rfl)⟩

end TradingSim
